import Mathlib

/-!
Shallow embedding of the Arduino irrigation controller (`src/arduino.cpp`).

The controller keeps a handful of globals (`ultimoRiego`, `bombaActiva`,
`plantaQuiereAgua`, `analizandoHumedad`, `inicioRiego`, `inicioAnalisis`) and,
once per loop iteration, reads the moisture sensor, updates the desire flag
(`verificarDeseoAgua`), runs the irrigation state machine (`controlarRiego`)
and renders status.  We model the globals as a record `Estado`, `millis()`
as a `Nat` parameter with the `unsigned long` (32-bit wrap-around)
subtraction made explicit, the relay pin level as a boolean field
(`true` = HIGH = pump de-energized, since the relay is active-low), and the
DHT temperature reading as `Option Int` (`none` standing for the NaN fault
sentinel returned by `dht.readTemperature()`).
-/

/-- `#define UMBRAL_RIEGO 30` — low moisture threshold (percent). -/
def UMBRAL_RIEGO : Int := 30

/-- `#define UMBRAL_SATISFECHO 45` — high moisture threshold (percent). -/
def UMBRAL_SATISFECHO : Int := 45

/-- `#define TIEMPO_RIEGO_MAX 1000` — maximum single-watering duration (ms). -/
def TIEMPO_RIEGO_MAX : Nat := 1000

/-- `#define SENSOR_SECO 1023` — raw reading of a fully dry sensor. -/
def SENSOR_SECO : Int := 1023

/-- `#define SENSOR_MOJADO 300` — raw reading of a fully wet sensor. -/
def SENSOR_MOJADO : Int := 300

/-- `unsigned long tiempoMinEntreriegos = 10000` — cooldown between waterings (ms). -/
def tiempoMinEntreriegos : Nat := 10000

/-- `unsigned long tiempoAnalisis = 5000` — post-watering analysis window (ms). -/
def tiempoAnalisis : Nat := 5000

/-- The mutable globals of the sketch, plus the relay pin level.
`relePin = true` models the pin at HIGH (pump off, as written in `setup`);
`digitalWrite(RELE_PIN, LOW)` energizes the pump. -/
structure Estado where
  ultimoRiego : Nat
  bombaActiva : Bool
  plantaQuiereAgua : Bool
  analizandoHumedad : Bool
  inicioRiego : Nat
  inicioAnalisis : Nat
  relePin : Bool
  deriving Repr, DecidableEq

/-- The state established by `setup()`: all flags false, all timestamps 0,
relay pin driven HIGH before anything else. -/
def estadoInicial : Estado :=
  { ultimoRiego := 0, bombaActiva := false, plantaQuiereAgua := false,
    analizandoHumedad := false, inicioRiego := 0, inicioAnalisis := 0,
    relePin := true }

/-- Modulus of Arduino `unsigned long` arithmetic (`2 ^ 32`). -/
def U32 : Nat := 4294967296

/-- `a - b` on `unsigned long`: subtraction wrapping modulo `2^32`,
matching every `millis() - timestamp` expression in the sketch. -/
def subU32 (a b : Nat) : Nat :=
  (U32 + a % U32 - b % U32) % U32

/-- Arduino `map(x, in_min, in_max, out_min, out_max)`:
`(x - in_min) * (out_max - out_min) / (in_max - in_min) + out_min` on
`long`, with C truncating division (`Int.tdiv`). -/
def map (x in_min in_max out_min out_max : Int) : Int :=
  Int.tdiv ((x - in_min) * (out_max - out_min)) (in_max - in_min) + out_min

/-- Arduino `constrain(x, a, b)`. -/
def constrain (x a b : Int) : Int :=
  if x < a then a else if x > b then b else x

/-- Lines 61–62 of `loop()`:
`int humedad = map(sensorValue, SENSOR_SECO, SENSOR_MOJADO, 0, 100);`
`humedad = constrain(humedad, 0, 100);` -/
def leerHumedad (sensorValue : Int) : Int :=
  constrain (map sensorValue SENSOR_SECO SENSOR_MOJADO 0 100) 0 100

/-- `verificarDeseoAgua(int humedad)`: sticky hysteresis update of
`plantaQuiereAgua`. -/
def verificarDeseoAgua (humedad : Int) (s : Estado) : Estado :=
  if humedad ≤ UMBRAL_RIEGO then { s with plantaQuiereAgua := true }
  else if humedad ≥ UMBRAL_SATISFECHO then { s with plantaQuiereAgua := false }
  else s

/-- `controlarRiego(int humedad)` with `tiempoActual = millis()` made an
explicit parameter.  The three early-return blocks of the C function become
the three branches: analysis window, pump active, idle. -/
def controlarRiego (humedad : Int) (tiempoActual : Nat) (s : Estado) : Estado :=
  if s.analizandoHumedad then
    if subU32 tiempoActual s.inicioAnalisis ≥ tiempoAnalisis then
      if humedad ≤ UMBRAL_RIEGO then
        { s with analizandoHumedad := false, plantaQuiereAgua := true }
      else
        { s with analizandoHumedad := false, plantaQuiereAgua := false }
    else s
  else if s.bombaActiva then
    if s.plantaQuiereAgua = false ∨ humedad ≥ UMBRAL_SATISFECHO ∨
        subU32 tiempoActual s.inicioRiego ≥ TIEMPO_RIEGO_MAX then
      { s with relePin := true, bombaActiva := false, ultimoRiego := tiempoActual,
               analizandoHumedad := true, inicioAnalisis := tiempoActual }
    else s
  else if s.plantaQuiereAgua = true ∧ humedad ≤ UMBRAL_RIEGO then
    if subU32 tiempoActual s.ultimoRiego ≥ tiempoMinEntreriegos then
      { s with relePin := false, bombaActiva := true, inicioRiego := tiempoActual }
    else s
  else s

/-- States reachable from `estadoInicial` by the two state-mutating
operations of the sketch, at arbitrary humidity readings and clock values. -/
inductive Alcanzable : Estado → Prop where
  | inicial : Alcanzable estadoInicial
  | deseo (humedad : Int) (s : Estado) :
      Alcanzable s → Alcanzable (verificarDeseoAgua humedad s)
  | riego (humedad : Int) (t : Nat) (s : Estado) :
      Alcanzable s → Alcanzable (controlarRiego humedad t s)

/-- Elapsed watering seconds shown by `mostrarEstadoSistema` while the pump
runs: `(millis() - inicioRiego) / 1000`. -/
def tiempoRiegoTranscurrido (t : Nat) (s : Estado) : Nat :=
  subU32 t s.inicioRiego / 1000

/-- Analysis-countdown base shown by `mostrarEstadoSistema`:
`(tiempoAnalisis - tiempoTranscurrido) / 1000`; the sketch prints this `+ 1`. -/
def tiempoRestanteAnalisis (t : Nat) (s : Estado) : Nat :=
  (tiempoAnalisis - subU32 t s.inicioAnalisis) / 1000

/-- Cooldown-countdown base shown by `mostrarEstadoSistema`:
`(tiempoMinEntreriegos - tiempoTranscurrido) / 1000`; printed `+ 1`. -/
def tiempoEsperaRiego (t : Nat) (s : Estado) : Nat :=
  (tiempoMinEntreriegos - subU32 t s.ultimoRiego) / 1000

/-- `mostrarEstadoSistema()`: the two 16-character LCD lines, as functions
of the current clock and state. -/
def mostrarEstadoSistema (t : Nat) (s : Estado) : String × String :=
  if s.bombaActiva then
    ("Bomba: ON       ",
      "Regando " ++ toString (tiempoRiegoTranscurrido t s) ++ "s    ")
  else if s.analizandoHumedad then
    ("Bomba: OFF      ",
      if subU32 t s.inicioAnalisis < tiempoAnalisis then
        "Esperando " ++ toString (tiempoRestanteAnalisis t s + 1) ++ "s  "
      else "Finalizando...  ")
  else
    ("Bomba: OFF      ",
      if s.plantaQuiereAgua then
        if s.ultimoRiego > 0 then
          if subU32 t s.ultimoRiego < tiempoMinEntreriegos then
            "Espera " ++ toString (tiempoEsperaRiego t s + 1) ++ "s    "
          else "Preparando riego"
        else "Preparando riego"
      else "Sin necesidad   ")

/-- `mostrarDatosSensores(float temperatura, int humedad)`: the two LCD
lines; `none` models `isnan(temperatura)`. -/
def mostrarDatosSensores (temperatura : Option Int) (humedad : Int)
    (s : Estado) : String × String :=
  (match temperatura with
    | none => "Temp: Error   "
    | some v => "Temp: " ++ toString v ++ "C      ",
   if s.analizandoHumedad then "Estabilizando..."
   else "Humedad: " ++ toString humedad ++ "%   ")

/-- One control cycle of `loop()` restricted to what can affect the
controller state and the sensor-data display: read humidity, run
`verificarDeseoAgua` then `controlarRiego`, render `mostrarDatosSensores`.
Returns the post-cycle state and the rendered display lines. -/
def cicloControl (sensorValue : Int) (temperatura : Option Int) (t : Nat)
    (s : Estado) : Estado × (String × String) :=
  let humedad := leerHumedad sensorValue
  let s1 := verificarDeseoAgua humedad s
  let s2 := controlarRiego humedad t s1
  (s2, mostrarDatosSensores temperatura humedad s2)

/-- Run `verificarDeseoAgua` + `controlarRiego` over a list of
`(clock value, humidity)` samples, oldest first. -/
def ejecutar (muestras : List (Nat × Int)) (s : Estado) : Estado :=
  match muestras with
  | [] => s
  | (t, h) :: resto => ejecutar resto (controlarRiego h t (verificarDeseoAgua h s))

/-! ## Helper lemmas -/

theorem subU32_eq_sub {a b : Nat} (hb : b ≤ a) (ha : a < U32) :
    subU32 a b = a - b := by
  unfold subU32 U32 at *
  omega

/-- Mutual exclusion of the pump and analysis flags. -/
def exclusionFlags (s : Estado) : Prop :=
  s.bombaActiva = false ∨ s.analizandoHumedad = false

theorem verificarDeseoAgua_exclusion (humedad : Int) (s : Estado)
    (h : exclusionFlags s) : exclusionFlags (verificarDeseoAgua humedad s) := by
  unfold verificarDeseoAgua exclusionFlags at *
  split_ifs <;> simp_all

theorem controlarRiego_exclusion (humedad : Int) (t : Nat) (s : Estado)
    (h : exclusionFlags s) : exclusionFlags (controlarRiego humedad t s) := by
  unfold controlarRiego exclusionFlags at *
  split_ifs <;> simp_all

theorem alcanzable_exclusion (s : Estado) (h : Alcanzable s) :
    exclusionFlags s := by
  induction h with
  | inicial => simp [exclusionFlags, estadoInicial]
  | deseo humedad s _ ih => exact verificarDeseoAgua_exclusion humedad s ih
  | riego humedad t s _ ih => exact controlarRiego_exclusion humedad t s ih

/-! ## Claims -/

/-- Claim C1: in every reachable controller state at most one of `bombaActiva`
and `analizandoHumedad` is true, and both operations of the state machine
(`verificarDeseoAgua` and `controlarRiego`) preserve this mutual exclusion. -/
theorem c1_exclusion_mutua :
    (∀ s : Estado, Alcanzable s →
      s.bombaActiva = false ∨ s.analizandoHumedad = false)
    ∧ (∀ (s : Estado) (humedad : Int) (t : Nat),
        (s.bombaActiva = false ∨ s.analizandoHumedad = false) →
        ((verificarDeseoAgua humedad s).bombaActiva = false ∨
          (verificarDeseoAgua humedad s).analizandoHumedad = false)
        ∧ ((controlarRiego humedad t s).bombaActiva = false ∨
          (controlarRiego humedad t s).analizandoHumedad = false)) := by
  refine ⟨fun s h => alcanzable_exclusion s h, fun s humedad t h => ?_⟩
  exact ⟨verificarDeseoAgua_exclusion humedad s h,
    controlarRiego_exclusion humedad t s h⟩

/-- Witness for C1 at the initial state and a concrete operation. -/
theorem c1_exclusion_mutua_witness :
    (estadoInicial.bombaActiva = false ∨ estadoInicial.analizandoHumedad = false)
    ∧ ((controlarRiego 20 10000 estadoInicial).bombaActiva = false ∨
        (controlarRiego 20 10000 estadoInicial).analizandoHumedad = false) :=
  ⟨c1_exclusion_mutua.1 estadoInicial Alcanzable.inicial,
    (c1_exclusion_mutua.2 estadoInicial 20 10000 (Or.inl rfl)).2⟩

/-- Claim C2: from WATERING (`bombaActiva`, not analyzing), one step at
clock `t` enters ANALYZING exactly when the desire flag is false, or the
humidity reached `UMBRAL_SATISFECHO = 45`, or the elapsed watering time
reached `TIEMPO_RIEGO_MAX`; on that transition the relay is driven HIGH
(pump off), `ultimoRiego` and `inicioAnalisis` are both set to `t`.  The
third disjunct makes the transition fire regardless of humidity once the
maximum duration has elapsed. -/
theorem c2_riego_a_analisis (s : Estado) (humedad : Int) (t : Nat)
    (hb : s.bombaActiva = true) (ha : s.analizandoHumedad = false) :
    ((controlarRiego humedad t s).analizandoHumedad = true ↔
      (s.plantaQuiereAgua = false ∨ UMBRAL_SATISFECHO ≤ humedad ∨
        TIEMPO_RIEGO_MAX ≤ subU32 t s.inicioRiego))
    ∧ ((s.plantaQuiereAgua = false ∨ UMBRAL_SATISFECHO ≤ humedad ∨
        TIEMPO_RIEGO_MAX ≤ subU32 t s.inicioRiego) →
      controlarRiego humedad t s =
        { s with relePin := true, bombaActiva := false, ultimoRiego := t,
                 analizandoHumedad := true, inicioAnalisis := t }) := by
  unfold controlarRiego
  simp only [ha, hb, ge_iff_le, Bool.false_eq_true, if_false, if_true]
  split_ifs with h <;> simp_all

/-- Witness for C2: a concrete WATERING state past the maximum duration. -/
theorem c2_riego_a_analisis_witness :
    (let s : Estado := { estadoInicial with bombaActiva := true, plantaQuiereAgua := true, relePin := false, inicioRiego := 10000 };
    controlarRiego 20 11001 s =
      { s with relePin := true, bombaActiva := false, ultimoRiego := 11001,
               analizandoHumedad := true, inicioAnalisis := 11001 }) :=
  (c2_riego_a_analisis _ 20 11001 rfl rfl).2 (Or.inr (Or.inr (by decide)))

/-- Claim C3 counterexample: with no prior watering (`ultimoRiego = 0`, as
`setup()` leaves it), the desire flag set and humidity `20 ≤ 30`, a step at
`t = 5000` does NOT enter WATERING — the code still imposes the cooldown
test `t - ultimoRiego ≥ 10000`, so the claimed "or no prior watering has
occurred" disjunct does not exist in the code. -/
theorem c3_contraejemplo :
    (let s : Estado := { estadoInicial with plantaQuiereAgua := true };
    s.plantaQuiereAgua = true ∧ (20 : Int) ≤ UMBRAL_RIEGO ∧ s.ultimoRiego = 0 ∧
      s.bombaActiva = false ∧ s.analizandoHumedad = false ∧
      (controlarRiego 20 5000 s).bombaActiva = false ∧
      controlarRiego 20 5000 s = s) := by
  decide

/-- Claim C3 (amended): from IDLE, one step at clock `t` enters WATERING and
energizes the pump (relay LOW, `inicioRiego = t`) if and only if the desire
flag is set, humidity is at most `UMBRAL_RIEGO = 30`, and
`t - ultimoRiego ≥ tiempoMinEntreriegos` in wrap-around arithmetic — with no
exemption for "no prior watering", since `ultimoRiego` is initialized to 0
and the cooldown test is applied to it like any other timestamp. -/
theorem c3_inactivo_a_riego (s : Estado) (humedad : Int) (t : Nat)
    (hb : s.bombaActiva = false) (ha : s.analizandoHumedad = false) :
    ((controlarRiego humedad t s).bombaActiva = true ↔
      (s.plantaQuiereAgua = true ∧ humedad ≤ UMBRAL_RIEGO ∧
        tiempoMinEntreriegos ≤ subU32 t s.ultimoRiego))
    ∧ ((s.plantaQuiereAgua = true ∧ humedad ≤ UMBRAL_RIEGO ∧
        tiempoMinEntreriegos ≤ subU32 t s.ultimoRiego) →
      controlarRiego humedad t s =
        { s with relePin := false, bombaActiva := true, inicioRiego := t }) := by
  unfold controlarRiego
  simp only [ha, hb, ge_iff_le, Bool.false_eq_true, if_false]
  split_ifs with h1 h2 <;> simp_all

/-- Witness for C3 (amended): a concrete IDLE state with cooldown elapsed. -/
theorem c3_inactivo_a_riego_witness :
    (let s : Estado := { estadoInicial with plantaQuiereAgua := true };
    controlarRiego 20 10000 s =
      { s with relePin := false, bombaActiva := true, inicioRiego := 10000 }) :=
  (c3_inactivo_a_riego _ 20 10000 rfl rfl).2 ⟨rfl, by decide, by decide⟩

/-- Claim C4: from ANALYZING, one step at clock `t` leaves the analysis
phase exactly when `t - inicioAnalisis ≥ tiempoAnalisis`; on that
transition `plantaQuiereAgua` becomes true when the current humidity is at
most `UMBRAL_RIEGO = 30` and false otherwise, and before that instant the
step changes nothing. -/
theorem c4_analisis_a_inactivo (s : Estado) (humedad : Int) (t : Nat)
    (ha : s.analizandoHumedad = true) :
    ((controlarRiego humedad t s).analizandoHumedad = false ↔
      tiempoAnalisis ≤ subU32 t s.inicioAnalisis)
    ∧ (tiempoAnalisis ≤ subU32 t s.inicioAnalisis →
        controlarRiego humedad t s =
          { s with analizandoHumedad := false,
                   plantaQuiereAgua := decide (humedad ≤ UMBRAL_RIEGO) })
    ∧ (subU32 t s.inicioAnalisis < tiempoAnalisis →
        controlarRiego humedad t s = s) := by
  unfold controlarRiego
  simp only [ha, ge_iff_le, if_true]
  split_ifs with h1 h2 <;> simp_all

/-- Witness for C4: concrete ANALYZING states before and after the window. -/
theorem c4_analisis_a_inactivo_witness :
    (let s : Estado := { estadoInicial with analizandoHumedad := true, ultimoRiego := 11001, inicioAnalisis := 11001 };
    controlarRiego 20 16001 s =
      { s with analizandoHumedad := false,
               plantaQuiereAgua := decide ((20 : Int) ≤ UMBRAL_RIEGO) }
    ∧ controlarRiego 20 12000 s = s) :=
  ⟨(c4_analisis_a_inactivo _ 20 16001 rfl).2.1 (by decide),
    (c4_analisis_a_inactivo _ 20 12000 rfl).2.2 (by decide)⟩

/-- Claim C5: `verificarDeseoAgua` is a pure hysteresis update of the
desire flag: humidity at most 30 sets it, at least 45 clears it, and in
between the whole state — the flag included — is left untouched; in the
first two cases every other field is also untouched. -/
theorem c5_deseo_histeresis (humedad : Int) (s : Estado) :
    (humedad ≤ UMBRAL_RIEGO →
      verificarDeseoAgua humedad s = { s with plantaQuiereAgua := true })
    ∧ (UMBRAL_SATISFECHO ≤ humedad →
      verificarDeseoAgua humedad s = { s with plantaQuiereAgua := false })
    ∧ (UMBRAL_RIEGO < humedad → humedad < UMBRAL_SATISFECHO →
      verificarDeseoAgua humedad s = s) := by
  unfold verificarDeseoAgua
  refine ⟨fun h => by simp [h], fun h => ?_, fun h1 h2 => ?_⟩
  · rw [if_neg (by unfold UMBRAL_RIEGO UMBRAL_SATISFECHO at *; omega),
      if_pos (le_of_eq rfl |>.trans h)]
  · rw [if_neg (by omega), if_neg (by unfold UMBRAL_SATISFECHO at *; omega)]

/-- Witness for C5 at humidity readings 20, 50 and 35. -/
theorem c5_deseo_histeresis_witness :
    verificarDeseoAgua 20 estadoInicial =
      { estadoInicial with plantaQuiereAgua := true }
    ∧ verificarDeseoAgua 50 estadoInicial =
      { estadoInicial with plantaQuiereAgua := false }
    ∧ verificarDeseoAgua 35 estadoInicial = estadoInicial :=
  ⟨(c5_deseo_histeresis 20 estadoInicial).1 (by decide),
    (c5_deseo_histeresis 50 estadoInicial).2.1 (by decide),
    (c5_deseo_histeresis 35 estadoInicial).2.2 (by decide) (by decide)⟩

/-- Claim C6: from IDLE with the desire flag set and humidity at most 30
but the cooldown not yet elapsed, one step leaves the entire state record
unchanged — same state, pump off, no timestamp or flag modified. -/
theorem c6_espera_sin_cambio (s : Estado) (humedad : Int) (t : Nat)
    (hb : s.bombaActiva = false) (ha : s.analizandoHumedad = false)
    (hq : s.plantaQuiereAgua = true) (hh : humedad ≤ UMBRAL_RIEGO)
    (hc : subU32 t s.ultimoRiego < tiempoMinEntreriegos) :
    controlarRiego humedad t s = s := by
  unfold controlarRiego
  split_ifs with h1 h2 h3 h4 <;> simp_all
  omega

/-- Witness for C6: a concrete deferred-watering state. -/
theorem c6_espera_sin_cambio_witness :
    controlarRiego 20 6000
      { estadoInicial with plantaQuiereAgua := true, ultimoRiego := 2000 } =
      { estadoInicial with plantaQuiereAgua := true, ultimoRiego := 2000 } :=
  c6_espera_sin_cambio _ 20 6000 rfl rfl rfl (by decide) (by decide)

theorem map_sensor_eq {x : Int} (hx : x ≤ SENSOR_SECO) :
    map x SENSOR_SECO SENSOR_MOJADO 0 100 = (((1023 - x).toNat * 100) / 723 : Nat) := by
  unfold SENSOR_SECO at hx
  unfold map SENSOR_SECO SENSOR_MOJADO
  have h0 : (0 : Int) ≤ 1023 - x := by omega
  have h1 : ((1023 - x).toNat : Int) = 1023 - x := Int.toNat_of_nonneg h0
  have h2 : (x - 1023) * (100 - 0) = -(((1023 - x).toNat : Int) * 100) := by
    rw [h1]; ring
  have h3 : (300 : Int) - 1023 = -723 := by norm_num
  rw [h2, h3, Int.tdiv_neg, Int.neg_tdiv, neg_neg, add_zero]
  exact_mod_cast (Int.ofNat_tdiv ((1023 - x).toNat * 100) 723).symm

theorem map_sensor_nonpos {x : Int} (hx : SENSOR_SECO < x) :
    map x SENSOR_SECO SENSOR_MOJADO 0 100 ≤ 0 := by
  unfold SENSOR_SECO at hx
  unfold map SENSOR_SECO SENSOR_MOJADO
  have h3 : (300 : Int) - 1023 = -723 := by norm_num
  rw [h3, Int.tdiv_neg, add_zero]
  have h4 : 0 ≤ Int.tdiv ((x - 1023) * (100 - 0)) 723 :=
    Int.tdiv_nonneg (mul_nonneg (by omega) (by norm_num)) (by norm_num)
  omega

theorem constrain_bounds (x : Int) :
    0 ≤ constrain x 0 100 ∧ constrain x 0 100 ≤ 100 := by
  unfold constrain
  split_ifs <;> omega

theorem constrain_mono {x y : Int} (h : x ≤ y) :
    constrain x 0 100 ≤ constrain y 0 100 := by
  unfold constrain
  split_ifs <;> omega

theorem constrain_of_nonpos {x : Int} (h : x ≤ 0) : constrain x 0 100 = 0 := by
  unfold constrain
  split_ifs <;> omega

/-- Claim C7: the humidity computation maps `SENSOR_SECO = 1023` to 0% and
`SENSOR_MOJADO = 300` to 100% through Arduino `map` (linear interpolation
with C truncating division) and clamps to `[0, 100]`; the mapping is
inverted — a larger raw sample never yields a larger percentage — and the
result lies in `[0, 100]` for every raw input. -/
theorem c7_sensor_lineal :
    leerHumedad SENSOR_SECO = 0 ∧ leerHumedad SENSOR_MOJADO = 100
    ∧ (∀ a b : Int, b < a → leerHumedad a ≤ leerHumedad b)
    ∧ (∀ x : Int, 0 ≤ leerHumedad x ∧ leerHumedad x ≤ 100) := by
  refine ⟨by decide, by decide, fun a b hab => ?_, fun x => constrain_bounds _⟩
  unfold leerHumedad
  rcases le_or_lt a SENSOR_SECO with ha | ha
  · have hb : b ≤ SENSOR_SECO := le_of_lt (lt_of_lt_of_le hab ha)
    rw [map_sensor_eq ha, map_sensor_eq hb]
    apply constrain_mono
    have hle : (1023 - a).toNat ≤ (1023 - b).toNat := by
      unfold SENSOR_SECO at ha hb
      omega
    exact_mod_cast Nat.div_le_div_right (Nat.mul_le_mul_right 100 hle)
  · rw [constrain_of_nonpos (map_sensor_nonpos ha)]
    exact (constrain_bounds _).1

/-- Witness for C7 at concrete raw samples 1023, 500, 400 and 700. -/
theorem c7_sensor_lineal_witness :
    leerHumedad SENSOR_SECO = 0 ∧ leerHumedad 500 ≤ leerHumedad 400
    ∧ (0 ≤ leerHumedad 700 ∧ leerHumedad 700 ≤ 100) :=
  ⟨c7_sensor_lineal.1, c7_sensor_lineal.2.2.1 500 400 (by decide),
    c7_sensor_lineal.2.2.2 700⟩

/-- Claim C8: the temperature reading never influences irrigation — two
control cycles that differ only in the temperature (the NaN sentinel
`none` included) produce the same controller state (all flags, all
timestamps, the relay pin) and the same humidity display line; a NaN
temperature only turns the temperature display line into the error text. -/
theorem c8_temperatura_no_interfiere :
    ∀ (sensorValue : Int) (temp1 temp2 : Option Int) (t : Nat) (s : Estado),
      (cicloControl sensorValue temp1 t s).1 = (cicloControl sensorValue temp2 t s).1
      ∧ (cicloControl sensorValue temp1 t s).2.2 =
          (cicloControl sensorValue temp2 t s).2.2
      ∧ (cicloControl sensorValue none t s).2.1 = "Temp: Error   " :=
  fun _ _ _ _ _ => ⟨rfl, rfl, rfl⟩

/-- Claim C9 counterexample: with the analysis window started at clock 0,
the countdown line of `mostrarEstadoSistema` shows the same value (5, not
zero) at `t = 1` and `t = 2`, so it does not strictly decrease as the clock
advances; and at `t = 0` it shows 6 seconds although 5000 ms rounded up to
whole seconds is 5 — the display is `floor + 1`, not a ceiling. -/
theorem c9_contraejemplo :
    (let s : Estado := { estadoInicial with analizandoHumedad := true };
    mostrarEstadoSistema 1 s = mostrarEstadoSistema 2 s
    ∧ (mostrarEstadoSistema 1 s).2 = "Esperando 5s  "
    ∧ tiempoRestanteAnalisis 1 s + 1 = 5 ∧ tiempoRestanteAnalisis 2 s + 1 = 5
    ∧ tiempoRestanteAnalisis 0 s + 1 = 6
    ∧ (5000 + 999) / 1000 = 5) := by
  decide

/-- Claim C9 (amended): the displayed countdowns use the state machine
wrap-around time arithmetic and equal `floor(remaining_ms / 1000) + 1`
(one more than the remaining whole seconds, so they round up only between
whole-second marks), the elapsed-watering display equals
`floor(elapsed_ms / 1000)`; within a phase and in the absence of clock
wrap the countdowns are non-negative and non-increasing as the clock
advances, and the elapsed-watering value is non-decreasing. -/
theorem c9_cuentas_atras :
    (∀ (s : Estado) (t : Nat), s.bombaActiva = false →
        s.analizandoHumedad = true → subU32 t s.inicioAnalisis < tiempoAnalisis →
        (mostrarEstadoSistema t s).2 =
          "Esperando " ++ toString (tiempoRestanteAnalisis t s + 1) ++ "s  ")
    ∧ (∀ (s : Estado) (t1 t2 : Nat), s.inicioAnalisis ≤ t1 → t1 ≤ t2 → t2 < U32 →
        tiempoRestanteAnalisis t2 s + 1 ≤ tiempoRestanteAnalisis t1 s + 1)
    ∧ (∀ (s : Estado) (t1 t2 : Nat), s.ultimoRiego ≤ t1 → t1 ≤ t2 → t2 < U32 →
        tiempoEsperaRiego t2 s + 1 ≤ tiempoEsperaRiego t1 s + 1)
    ∧ (∀ (s : Estado) (t1 t2 : Nat), s.inicioRiego ≤ t1 → t1 ≤ t2 → t2 < U32 →
        tiempoRiegoTranscurrido t1 s ≤ tiempoRiegoTranscurrido t2 s) := by
  refine ⟨fun s t hb ha hlt => ?_, fun s t1 t2 h1 h12 h2 => ?_,
    fun s t1 t2 h1 h12 h2 => ?_, fun s t1 t2 h1 h12 h2 => ?_⟩
  · unfold mostrarEstadoSistema
    rw [if_neg (by simp [hb]), if_pos (by simp [ha]), if_pos hlt]
  · unfold tiempoRestanteAnalisis
    rw [subU32_eq_sub h1 (lt_of_le_of_lt h12 h2),
      subU32_eq_sub (h1.trans h12) h2]
    exact Nat.add_le_add_right (Nat.div_le_div_right (by omega)) 1
  · unfold tiempoEsperaRiego
    rw [subU32_eq_sub h1 (lt_of_le_of_lt h12 h2),
      subU32_eq_sub (h1.trans h12) h2]
    exact Nat.add_le_add_right (Nat.div_le_div_right (by omega)) 1
  · unfold tiempoRiegoTranscurrido
    rw [subU32_eq_sub h1 (lt_of_le_of_lt h12 h2),
      subU32_eq_sub (h1.trans h12) h2]
    exact Nat.div_le_div_right (by omega)

/-- Witness for C9 (amended) at a concrete analysis phase. -/
theorem c9_cuentas_atras_witness :
    (mostrarEstadoSistema 1200 { estadoInicial with analizandoHumedad := true }).2 =
      "Esperando " ++ toString
        (tiempoRestanteAnalisis 1200 { estadoInicial with analizandoHumedad := true } + 1) ++ "s  "
    ∧ tiempoRestanteAnalisis 2400 { estadoInicial with analizandoHumedad := true } + 1 ≤
        tiempoRestanteAnalisis 1200 { estadoInicial with analizandoHumedad := true } + 1 :=
  ⟨c9_cuentas_atras.1 { estadoInicial with analizandoHumedad := true } 1200
      rfl rfl (by decide),
    c9_cuentas_atras.2.1 { estadoInicial with analizandoHumedad := true } 1200 2400
      (by decide) (by decide) (by decide)⟩

theorem alcanzable_riego_eq_analisis (s : Estado) (h : Alcanzable s) :
    s.ultimoRiego = s.inicioAnalisis := by
  induction h with
  | inicial => rfl
  | deseo humedad s _ ih =>
      unfold verificarDeseoAgua
      split_ifs <;> simp_all
  | riego humedad t s _ ih =>
      unfold controlarRiego
      split_ifs <;> simp_all

theorem controlarRiego_enciende_bomba {s : Estado} {humedad : Int} {t : Nat}
    (hb : s.bombaActiva = false)
    (hon : (controlarRiego humedad t s).bombaActiva = true) :
    tiempoMinEntreriegos ≤ subU32 t s.ultimoRiego := by
  unfold controlarRiego at hon
  split_ifs at hon <;> simp_all

/-- Claim C10 counterexample: an execution from the initial state in which
the ANALYZING→IDLE exit step happens late (at `t = 20999`, with the window
over since `16001`) and the pump is re-energized 2 ms later (`t = 21001`),
because the cooldown is anchored at `ultimoRiego = 11001`, not at the exit
step.  Humidity is 20 ≤ 30 throughout and the desire flag is set at the
re-energizing step. -/
theorem c10_contraejemplo :
    (let s2 := ejecutar [(10000, 20), (11001, 20)] estadoInicial;
    let s3 := ejecutar [(10000, 20), (11001, 20), (20999, 20)] estadoInicial;
    s2.analizandoHumedad = true
    ∧ s3.analizandoHumedad = false ∧ s3.bombaActiva = false
    ∧ s3.plantaQuiereAgua = true
    ∧ (controlarRiego 20 21001 (verificarDeseoAgua 20 s3)).bombaActiva = true
    ∧ 21001 - 20999 < 5000) := by
  decide

/-- Claim C10 (amended): in every reachable state `ultimoRiego` and
`inicioAnalisis` are equal (the WATERING→ANALYZING transition records both
at the same instant), so — absent clock wrap — a step can energize the pump
only at a clock value at least `tiempoMinEntreriegos = 10000` past
`inicioAnalisis`, i.e. at least `tiempoMinEntreriegos - tiempoAnalisis =
5000` ms after the scheduled end of the analysis window
`inicioAnalisis + tiempoAnalisis`.  The anchor of the original claim — the
ANALYZING→IDLE exit step itself — can run later than the end of the window, and
then the pump may restart sooner than 5000 ms after that step. -/
theorem c10_reactivacion_tras_analisis (s : Estado) (humedad : Int) (t : Nat)
    (hr : Alcanzable s) (hb : s.bombaActiva = false)
    (hon : (controlarRiego humedad t s).bombaActiva = true)
    (hle : s.ultimoRiego ≤ t) (hlt : t < U32) :
    s.inicioAnalisis + tiempoAnalisis + (tiempoMinEntreriegos - tiempoAnalisis) ≤ t := by
  have hcool := controlarRiego_enciende_bomba hb hon
  rw [subU32_eq_sub hle hlt] at hcool
  have heq := alcanzable_riego_eq_analisis s hr
  unfold tiempoAnalisis tiempoMinEntreriegos at *
  omega

/-- Witness for C10 (amended): the first watering from the initial state,
at clock 10000, is at least 10000 past `inicioAnalisis = 0`. -/
theorem c10_reactivacion_tras_analisis_witness :
    (verificarDeseoAgua 20 estadoInicial).bombaActiva = false
    ∧ (controlarRiego 20 10000 (verificarDeseoAgua 20 estadoInicial)).bombaActiva = true
    ∧ (verificarDeseoAgua 20 estadoInicial).inicioAnalisis + tiempoAnalisis +
        (tiempoMinEntreriegos - tiempoAnalisis) ≤ 10000 :=
  ⟨by decide, by decide,
    c10_reactivacion_tras_analisis (verificarDeseoAgua 20 estadoInicial) 20 10000
      (Alcanzable.deseo 20 estadoInicial Alcanzable.inicial)
      (by decide) (by decide) (by decide) (by decide)⟩
